import Mathlib

/-!
Verification of the async-pipe byte channel (routerify/async-pipe-rs).

The shared channel state (`state.rs` as used by `lib.rs`) is a record of the
two registered wakers, the `closed` flag, and the FIFO byte buffer; the two
handles (`PipeWriter` in `writer.rs`, `PipeReader` in `reader.rs`) mutate it
under a lock.  The embedding below is a direct translation of that code:
wakers are opaque identifiers, a "poll" either completes with a result or
reports `Pending`, and each operation returns the poll outcome, the updated
state, and the list of wakers it invoked.  The `Arc::strong_count` of the
shared state is passed explicitly (`2` while both handles are alive, `1`
once the peer handle has been dropped).  Lock acquisition is modelled as
always succeeding: lock poisoning only arises from a panic in another
thread, outside this model.
-/

namespace AsyncPipe

abbrev Waker := Nat

abbrev Byte := Nat

/-- The shared channel state, as initialised by `pipe()` in `lib.rs` and
used by `reader.rs` and `writer.rs`: the two optional wakers, the `closed`
flag and the FIFO byte buffer. -/
structure State where
  reader_waker : Option Waker
  writer_waker : Option Waker
  closed : Bool
  buffer : List Byte
  deriving Repr, DecidableEq

/-- Modelled from the spec: `writer.rs` imports the constant `BUFFER_SIZE`
from `state.rs`, but the `state.rs` present under `src/` is a stale
pointer-based variant of the state that defines neither the `buffer` field
nor this constant.  The spec fixes the capacity: "bounded to a fixed
capacity `C` (default 1024)". -/
def BUFFER_SIZE : Nat := 1024

/-- Outcome of a poll-based operation: ready with a value, or pending. -/
inductive Poll (α : Type) where
  | Ready : α → Poll α
  | Pending : Poll α
  deriving Repr, DecidableEq

/-- The error kinds the pipe produces on its happy paths (lock poisoning,
which maps to `Other`, is not modelled). -/
inductive IoErrorKind where
  | BrokenPipe
  | Other
  deriving Repr, DecidableEq

/-- The fresh state allocated by `pipe()` in `lib.rs`: no wakers, not
closed, empty buffer. -/
def pipe : State :=
  { reader_waker := none, writer_waker := none, closed := false, buffer := [] }

namespace PipeWriter

/-- Translation of `PipeWriter::wake_reader_half`: invoke the reader waker
when one is registered; the slot itself is not modified.  Returns the list
of wakers invoked. -/
def wake_reader_half (s : State) : List Waker :=
  match s.reader_waker with
  | some w => [w]
  | none => []

/-- Translation of `PipeWriter::poll_write`.  `c` is the strong count of
the shared `Arc`, `cx` the calling task's waker, `buf` the input slice.
Returns the poll result (byte count on success), the updated state, and
the wakers invoked. -/
def poll_write (c : Nat) (s : State) (cx : Waker) (buf : List Byte) :
    Poll (Except IoErrorKind Nat) × State × List Waker :=
  if c = 1 then
    (Poll.Ready (Except.error IoErrorKind.BrokenPipe), s, [])
  else
    let woken := wake_reader_half s
    let remaining := BUFFER_SIZE - s.buffer.length
    if remaining = 0 then
      (Poll.Pending, { s with writer_waker := some cx }, woken)
    else
      let bytes_to_write := min remaining buf.length
      (Poll.Ready (Except.ok bytes_to_write),
        { s with buffer := s.buffer ++ buf.take bytes_to_write }, woken)

/-- Translation of `PipeWriter::poll_flush`: ready iff the buffer is
empty; otherwise register the writer waker, wake the reader, and report
pending. -/
def poll_flush (s : State) (cx : Waker) :
    Poll (Except IoErrorKind Unit) × State × List Waker :=
  if s.buffer = [] then
    (Poll.Ready (Except.ok ()), s, [])
  else
    (Poll.Pending, { s with writer_waker := some cx }, wake_reader_half s)

/-- Translation of `PipeWriter::close`: set `closed` and wake the reader
half. -/
def close (s : State) : State × List Waker :=
  ({ s with closed := true }, wake_reader_half s)

/-- Translation of `PipeWriter::poll_shutdown`: delegates to `close` and
is always ready. -/
def poll_shutdown (s : State) :
    Poll (Except IoErrorKind Unit) × State × List Waker :=
  (Poll.Ready (Except.ok ()), (close s).1, (close s).2)

/-- Modelled from the spec: the `Drop` implementation for `PipeWriter` is
not present under `src/` (only the struct and its poll methods are).  Per
the spec, "on drop: equivalent to calling close()". -/
def drop (s : State) : State × List Waker :=
  close s

end PipeWriter

namespace PipeReader

/-- Translation of `PipeReader::wake_writer_half`: invoke the writer waker
when one is registered; the slot itself is not modified. -/
def wake_writer_half (s : State) : List Waker :=
  match s.writer_waker with
  | some w => [w]
  | none => []

/-- Translation of `PipeReader::poll_read`.  `c` is the strong count of
the shared `Arc`, `cx` the calling task's waker, `bufLen` the length of
the destination slice.  Returns the poll result (the bytes copied into the
destination on success), the updated state, and the wakers invoked. -/
def poll_read (c : Nat) (s : State) (cx : Waker) (bufLen : Nat) :
    Poll (Except IoErrorKind (List Byte)) × State × List Waker :=
  if s.buffer = [] then
    if s.closed = true ∨ c = 1 then
      (Poll.Ready (Except.ok []), s, [])
    else
      (Poll.Pending, { s with reader_waker := some cx }, wake_writer_half s)
  else
    let size_to_read := min s.buffer.length bufLen
    (Poll.Ready (Except.ok (s.buffer.take size_to_read)),
      { s with buffer := s.buffer.drop size_to_read }, wake_writer_half s)

/-- Translation of `PipeReader::close`: set `closed` and wake the writer
half. -/
def close (s : State) : State × List Waker :=
  ({ s with closed := true }, wake_writer_half s)

/-- Modelled from the spec: the `Drop` implementation for `PipeReader` is
not present under `src/`.  Per the spec, "on drop: equivalent to
close()". -/
def drop (s : State) : State × List Waker :=
  close s

end PipeReader

/-- One step of the single-writer/single-reader interaction for the FIFO
property: the writer calls `poll_write`, or the reader calls `poll_read`,
both handles being alive (strong count 2). -/
inductive Op where
  | write (cx : Waker) (buf : List Byte)
  | read (cx : Waker) (bufLen : Nat)

/-- Apply one operation to the state while accumulating the bytes accepted
by writes and the bytes returned by reads. -/
def step (p : State × List Byte × List Byte) (op : Op) :
    State × List Byte × List Byte :=
  match op with
  | Op.write cx buf =>
    match PipeWriter.poll_write 2 p.1 cx buf with
    | (Poll.Ready (Except.ok n), s2, _) => (s2, p.2.1 ++ buf.take n, p.2.2)
    | (_, s2, _) => (s2, p.2.1, p.2.2)
  | Op.read cx bufLen =>
    match PipeReader.poll_read 2 p.1 cx bufLen with
    | (Poll.Ready (Except.ok bs), s2, _) => (s2, p.2.1, p.2.2 ++ bs)
    | (_, s2, _) => (s2, p.2.1, p.2.2)

/-- Run a whole sequence of operations from the fresh pipe, starting with
empty accumulators. -/
def run (ops : List Op) : State × List Byte × List Byte :=
  ops.foldl step (pipe, [], [])

/-! Helper lemmas shared by the claims. -/

theorem wake_reader_half_eq (s : State) :
    PipeWriter.wake_reader_half s = s.reader_waker.toList := by
  cases h : s.reader_waker <;> simp [PipeWriter.wake_reader_half, h]

theorem wake_writer_half_eq (s : State) :
    PipeReader.wake_writer_half s = s.writer_waker.toList := by
  cases h : s.writer_waker <;> simp [PipeReader.wake_writer_half, h]

/-! The claims. -/

/-- Claim C1, code behaviour at the failing input: with `closed = true`,
the reader handle still alive (strong count 2) and an empty buffer,
`poll_write` of a single byte appends the byte to the buffer and returns
`Ready (ok 1)` — not the `BrokenPipe` error the claim (and the
documentation of `close` in the source) requires.  `poll_write` never
consults the `closed` flag; it only tests the strong count. -/
theorem c1_write_after_close_succeeds :
    PipeWriter.poll_write 2
        { reader_waker := none, writer_waker := none,
          closed := true, buffer := [] } 7 [42] =
      (Poll.Ready (Except.ok 1),
        { reader_waker := none, writer_waker := none,
          closed := true, buffer := [42] }, []) := by
  rfl

/-- Claim C4: with a non-empty buffer, `poll_read` returns exactly
`min (len buffer) (len buf)` bytes — the oldest buffered bytes, in FIFO
order — removes them from the buffer leaving exactly the untouched suffix,
and invokes the writer's registered waker. -/
theorem c4_read_nonempty (c : Nat) (s : State) (cx : Waker) (bufLen : Nat)
    (h : s.buffer ≠ []) :
    PipeReader.poll_read c s cx bufLen =
      (Poll.Ready (Except.ok (s.buffer.take (min s.buffer.length bufLen))),
        { s with buffer := s.buffer.drop (min s.buffer.length bufLen) },
        s.writer_waker.toList) ∧
    (s.buffer.take (min s.buffer.length bufLen)).length =
      min s.buffer.length bufLen ∧
    s.buffer.take (min s.buffer.length bufLen) ++
      s.buffer.drop (min s.buffer.length bufLen) = s.buffer := by
  refine ⟨?_, ?_, List.take_append_drop _ _⟩
  · simp [PipeReader.poll_read, h, wake_writer_half_eq]
  · simp only [List.length_take]
    omega

/-- Claim C4 witness: reading two bytes from a three-byte buffer with the
writer waker 5 registered yields the oldest two bytes, leaves the third,
and wakes waker 5. -/
theorem c4_read_nonempty_witness :
    PipeReader.poll_read 2
        { reader_waker := none, writer_waker := some 5,
          closed := false, buffer := [1, 2, 3] } 9 2 =
      (Poll.Ready (Except.ok [1, 2]),
        { reader_waker := none, writer_waker := some 5,
          closed := false, buffer := [3] }, [5]) ∧
    ([1, 2] : List Byte).length = 2 ∧
    ([1, 2] : List Byte) ++ [3] = [1, 2, 3] :=
  c4_read_nonempty 2
    { reader_waker := none, writer_waker := some 5,
      closed := false, buffer := [1, 2, 3] } 9 2 (by decide)

/-- Claim C5: on an open pipe whose reader is alive, with
`remaining = C - len buffer > 0`, `poll_write` appends exactly
`min remaining (len buf)` bytes — the input's first bytes — to the buffer
and returns that count. -/
theorem c5_partial_write (s : State) (cx : Waker) (buf : List Byte)
    (_hOpen : s.closed = false)
    (hRem : 0 < BUFFER_SIZE - s.buffer.length) :
    PipeWriter.poll_write 2 s cx buf =
      (Poll.Ready (Except.ok (min (BUFFER_SIZE - s.buffer.length) buf.length)),
        { s with buffer := s.buffer ++
            buf.take (min (BUFFER_SIZE - s.buffer.length) buf.length) },
        s.reader_waker.toList) ∧
    (buf.take (min (BUFFER_SIZE - s.buffer.length) buf.length)).length =
      min (BUFFER_SIZE - s.buffer.length) buf.length := by
  have hne : BUFFER_SIZE - s.buffer.length ≠ 0 := by omega
  refine ⟨?_, ?_⟩
  · simp [PipeWriter.poll_write, hne, wake_reader_half_eq]
  · simp only [List.length_take]
    omega

/-- Claim C5 witness: writing three bytes into a fresh pipe (capacity
1024, so remaining is 1024) accepts all three. -/
theorem c5_partial_write_witness :
    (pipe.closed = false ∧ 0 < BUFFER_SIZE - pipe.buffer.length) ∧
    PipeWriter.poll_write 2 pipe 4 [10, 11, 12] =
      (Poll.Ready (Except.ok 3),
        { reader_waker := none, writer_waker := none,
          closed := false, buffer := [10, 11, 12] }, []) ∧
    ([10, 11, 12] : List Byte).length = 3 :=
  ⟨⟨by decide, by decide⟩,
    by simpa using c5_partial_write pipe 4 [10, 11, 12] (by decide) (by decide)⟩

/-- Claim C6: reading from an empty buffer when the channel is closed, or
when the writer handle has been dropped (the reader is the sole owner,
strong count 1), returns a successful zero-byte end-of-stream result and
leaves the state unchanged. -/
theorem c6_read_eof (c : Nat) (s : State) (cx : Waker) (bufLen : Nat)
    (hEmpty : s.buffer = []) (hEnd : s.closed = true ∨ c = 1) :
    PipeReader.poll_read c s cx bufLen = (Poll.Ready (Except.ok []), s, []) := by
  unfold PipeReader.poll_read
  rw [if_pos hEmpty, if_pos hEnd]

/-- Claim C6 witness: with the writer dropped (strong count 1) and a fresh
empty state, a read returns zero bytes successfully. -/
theorem c6_read_eof_witness :
    PipeReader.poll_read 1 pipe 3 8 = (Poll.Ready (Except.ok []), pipe, []) :=
  c6_read_eof 1 pipe 3 8 (by decide) (Or.inr rfl)

/-- Claim C7 counterexample: with the channel closed (`closed = true`) and
the buffer empty, `poll_flush` returns plain success, not a `BrokenPipe`
error; `poll_flush` never consults `closed` and has no error path. -/
theorem c7_flush_after_close_not_broken :
    PipeWriter.poll_flush
        { reader_waker := none, writer_waker := none,
          closed := true, buffer := [] } 5 =
      (Poll.Ready (Except.ok ()),
        { reader_waker := none, writer_waker := none,
          closed := true, buffer := [] }, []) ∧
    (PipeWriter.poll_flush
        { reader_waker := none, writer_waker := none,
          closed := true, buffer := [] } 5).1 ≠
      Poll.Ready (Except.error IoErrorKind.BrokenPipe) := by
  exact ⟨rfl, by simp [PipeWriter.poll_flush]⟩

/-- Claim C7 as amended: `poll_flush` ignores `closed` and reader
liveness entirely.  It returns success exactly when the buffer is empty;
otherwise it registers the writer waker, wakes the reader, and reports
pending.  It never returns a `BrokenPipe` error. -/
theorem c7_flush_behaviour (s : State) (cx : Waker) :
    (s.buffer = [] →
      PipeWriter.poll_flush s cx = (Poll.Ready (Except.ok ()), s, [])) ∧
    (s.buffer ≠ [] →
      PipeWriter.poll_flush s cx =
        (Poll.Pending, { s with writer_waker := some cx },
          s.reader_waker.toList)) := by
  constructor
  · intro h
    simp [PipeWriter.poll_flush, h]
  · intro h
    simp [PipeWriter.poll_flush, h, wake_reader_half_eq]

/-- Claim C7 amended witness: on a closed state with one buffered byte,
flush reports pending and registers the writer waker. -/
theorem c7_flush_behaviour_witness :
    PipeWriter.poll_flush
        { reader_waker := some 8, writer_waker := none,
          closed := true, buffer := [1] } 5 =
      (Poll.Pending,
        { reader_waker := some 8, writer_waker := some 5,
          closed := true, buffer := [1] }, [8]) :=
  (c7_flush_behaviour
    { reader_waker := some 8, writer_waker := none,
      closed := true, buffer := [1] } 5).2 (by decide)

/-- Claim C9 counterexample: with `writer_waker = some 3` registered and a
non-empty buffer, `poll_read` invokes waker 3 (it appears in the woken
list) yet leaves the `writer_waker` slot still holding `some 3` — the
field is not cleared when its task is woken. -/
theorem c9_waker_not_cleared :
    (PipeReader.poll_read 2
        { reader_waker := none, writer_waker := some 3,
          closed := false, buffer := [9] } 6 1).2.2 = [3] ∧
    (PipeReader.poll_read 2
        { reader_waker := none, writer_waker := some 3,
          closed := false, buffer := [9] } 6 1).2.1.writer_waker = some 3 := by
  exact ⟨rfl, rfl⟩

/-- Claim C9 as amended: waker slots are never cleared.  Every operation
leaves each waker field either unchanged or overwritten with the newly
registered waker; invoking a waker (waking the peer) leaves the slot
as-is, and a successful attempt leaves the caller's own stale waker
registered. -/
theorem c9_waker_slots (c : Nat) (s : State) (cx : Waker) (buf : List Byte)
    (bufLen : Nat) :
    ((PipeWriter.poll_write c s cx buf).2.1.reader_waker = s.reader_waker) ∧
    ((PipeWriter.poll_write c s cx buf).2.1.writer_waker = s.writer_waker ∨
      (PipeWriter.poll_write c s cx buf).2.1.writer_waker = some cx) ∧
    ((PipeReader.poll_read c s cx bufLen).2.1.writer_waker = s.writer_waker) ∧
    ((PipeReader.poll_read c s cx bufLen).2.1.reader_waker = s.reader_waker ∨
      (PipeReader.poll_read c s cx bufLen).2.1.reader_waker = some cx) ∧
    ((PipeWriter.poll_flush s cx).2.1.reader_waker = s.reader_waker) ∧
    ((PipeWriter.poll_flush s cx).2.1.writer_waker = s.writer_waker ∨
      (PipeWriter.poll_flush s cx).2.1.writer_waker = some cx) ∧
    ((PipeWriter.close s).1.reader_waker = s.reader_waker ∧
      (PipeWriter.close s).1.writer_waker = s.writer_waker) ∧
    ((PipeReader.close s).1.reader_waker = s.reader_waker ∧
      (PipeReader.close s).1.writer_waker = s.writer_waker) := by
  refine ⟨?_, ?_, ?_, ?_, ?_, ?_, ⟨rfl, rfl⟩, ⟨rfl, rfl⟩⟩
  · by_cases h1 : c = 1
    · simp [PipeWriter.poll_write, h1]
    · by_cases h2 : BUFFER_SIZE - s.buffer.length = 0 <;>
        simp [PipeWriter.poll_write, h1, h2]
  · by_cases h1 : c = 1
    · simp [PipeWriter.poll_write, h1]
    · by_cases h2 : BUFFER_SIZE - s.buffer.length = 0 <;>
        simp [PipeWriter.poll_write, h1, h2]
  · by_cases hb : s.buffer = []
    · by_cases hc : s.closed = true ∨ c = 1 <;>
        simp [PipeReader.poll_read, hb, hc]
    · simp [PipeReader.poll_read, hb]
  · by_cases hb : s.buffer = []
    · by_cases hc : s.closed = true ∨ c = 1 <;>
        simp [PipeReader.poll_read, hb, hc]
    · simp [PipeReader.poll_read, hb]
  · by_cases hb : s.buffer = [] <;> simp [PipeWriter.poll_flush, hb]
  · by_cases hb : s.buffer = [] <;> simp [PipeWriter.poll_flush, hb]

/-- Claim C10: an empty-slice write on an open pipe with the reader alive:
when the buffer is not full it returns `wrote 0` and leaves the state
(buffer, `closed`, `writer_waker`) unchanged; when the buffer is full it
reports pending and registers the writer waker anyway.  In both cases the
reader's registered waker is invoked. -/
theorem c10_empty_write (s : State) (cx : Waker) (_hOpen : s.closed = false) :
    (s.buffer.length < BUFFER_SIZE →
      PipeWriter.poll_write 2 s cx [] =
        (Poll.Ready (Except.ok 0), s, s.reader_waker.toList)) ∧
    (BUFFER_SIZE ≤ s.buffer.length →
      PipeWriter.poll_write 2 s cx [] =
        (Poll.Pending, { s with writer_waker := some cx },
          s.reader_waker.toList)) := by
  constructor
  · intro h
    have hne : BUFFER_SIZE - s.buffer.length ≠ 0 := by omega
    simp [PipeWriter.poll_write, hne, wake_reader_half_eq]
  · intro h
    have he : BUFFER_SIZE - s.buffer.length = 0 := by omega
    simp [PipeWriter.poll_write, he, wake_reader_half_eq]

/-- Claim C10 witness: an empty-slice write on the fresh pipe (open, not
full) returns `wrote 0` and leaves the state untouched. -/
theorem c10_empty_write_witness :
    PipeWriter.poll_write 2 pipe 6 [] = (Poll.Ready (Except.ok 0), pipe, []) :=
  (c10_empty_write pipe 6 rfl).1 (by decide)

/-- Claim C8: the fresh state satisfies `len buffer ≤ C`, and every
operation of either handle preserves it — in particular `poll_write`
appends at most `C - len buffer` bytes, so the buffer never exceeds the
capacity. -/
theorem c8_buffer_bounded :
    pipe.buffer.length ≤ BUFFER_SIZE ∧
    ∀ (c : Nat) (s : State) (cx : Waker) (buf : List Byte) (bufLen : Nat),
      s.buffer.length ≤ BUFFER_SIZE →
        (PipeWriter.poll_write c s cx buf).2.1.buffer.length ≤ BUFFER_SIZE ∧
        (PipeReader.poll_read c s cx bufLen).2.1.buffer.length ≤ BUFFER_SIZE ∧
        (PipeWriter.poll_flush s cx).2.1.buffer.length ≤ BUFFER_SIZE ∧
        (PipeWriter.poll_shutdown s).2.1.buffer.length ≤ BUFFER_SIZE ∧
        (PipeWriter.close s).1.buffer.length ≤ BUFFER_SIZE ∧
        (PipeReader.close s).1.buffer.length ≤ BUFFER_SIZE ∧
        (PipeWriter.drop s).1.buffer.length ≤ BUFFER_SIZE ∧
        (PipeReader.drop s).1.buffer.length ≤ BUFFER_SIZE := by
  refine ⟨by simp [pipe], ?_⟩
  intro c s cx buf bufLen h
  refine ⟨?_, ?_, ?_, h, h, h, h, h⟩
  · by_cases h1 : c = 1
    · simpa [PipeWriter.poll_write, h1] using h
    · by_cases h2 : BUFFER_SIZE - s.buffer.length = 0
      · simpa [PipeWriter.poll_write, h1, h2] using h
      · simp only [PipeWriter.poll_write, h1, h2, if_neg, if_false]
        simp only [if_neg h1, if_neg h2, List.length_append, List.length_take]
        omega
  · by_cases hb : s.buffer = []
    · by_cases hc : s.closed = true ∨ c = 1 <;>
        simp [PipeReader.poll_read, hb, hc]
    · simp only [PipeReader.poll_read, if_neg hb, List.length_drop]
      omega
  · by_cases hb : s.buffer = []
    · simp [PipeWriter.poll_flush, hb]
    · simpa [PipeWriter.poll_flush, hb] using h

/-- Claim C8 witness: applying each operation to the fresh pipe keeps the
buffer within the capacity. -/
theorem c8_buffer_bounded_witness :
    pipe.buffer.length ≤ BUFFER_SIZE ∧
    (PipeWriter.poll_write 2 pipe 3 [1, 2]).2.1.buffer.length ≤ BUFFER_SIZE :=
  ⟨c8_buffer_bounded.1, (c8_buffer_bounded.2 2 pipe 3 [1, 2] 4 (by decide)).1⟩

/-- One interaction step keeps the books balanced: the bytes already read
followed by the bytes still buffered are exactly the bytes accepted so
far. -/
theorem step_consistency (p : State × List Byte × List Byte) (op : Op)
    (h : p.2.2 ++ p.1.buffer = p.2.1) :
    (step p op).2.2 ++ (step p op).1.buffer = (step p op).2.1 := by
  obtain ⟨s, aw, ar⟩ := p
  simp only at h
  cases op with
  | write cx buf =>
    by_cases h2 : BUFFER_SIZE - s.buffer.length = 0
    · simpa [step, PipeWriter.poll_write, h2] using h
    · simp only [step, PipeWriter.poll_write, if_neg h2]
      simp only [show ¬((2 : Nat) = 1) by omega, if_false, if_neg h2]
      simpa [← List.append_assoc] using congrArg (· ++ buf.take (min (BUFFER_SIZE - s.buffer.length) buf.length)) h
  | read cx bufLen =>
    by_cases hb : s.buffer = []
    · by_cases hc : s.closed = true ∨ (2 : Nat) = 1
      · simp only [step, PipeReader.poll_read, if_pos hb, if_pos hc]
        simpa [hb] using h
      · simp only [step, PipeReader.poll_read, if_pos hb, if_neg hc]
        simpa [hb] using h
    · simp only [step, PipeReader.poll_read, if_neg hb]
      rw [List.append_assoc, List.take_append_drop]
      exact h

/-- The balance of `step_consistency`, extended over a whole run. -/
theorem run_consistency_aux (ops : List Op) (p : State × List Byte × List Byte)
    (h : p.2.2 ++ p.1.buffer = p.2.1) :
    (ops.foldl step p).2.2 ++ (ops.foldl step p).1.buffer =
      (ops.foldl step p).2.1 := by
  induction ops generalizing p with
  | nil => simpa using h
  | cons op rest ih => exact ih (step p op) (step_consistency p op h)

/-- Claim C2: over any sequence of writer `poll_write` and reader
`poll_read` calls on one pipe, once the buffer has drained, the
concatenation of all bytes returned by the reads equals the concatenation
of all bytes accepted by the writes, in the same order (end-to-end
FIFO). -/
theorem c2_fifo (ops : List Op) (hdrained : (run ops).1.buffer = []) :
    (run ops).2.2 = (run ops).2.1 := by
  have hbal := run_consistency_aux ops (pipe, [], []) (by simp [pipe])
  rw [show run ops = ops.foldl step (pipe, [], []) from rfl] at hdrained ⊢
  rw [hdrained, List.append_nil] at hbal
  exact hbal

/-- Claim C2 witness: write three bytes, read them back in two calls; the
buffer drains and the reads reproduce the writes in order. -/
theorem c2_fifo_witness :
    (run [Op.write 0 [1, 2, 3], Op.read 1 2, Op.read 1 5]).2.2 =
      (run [Op.write 0 [1, 2, 3], Op.read 1 2, Op.read 1 5]).2.1 :=
  c2_fifo [Op.write 0 [1, 2, 3], Op.read 1 2, Op.read 1 5] (by decide)

/-- Claim C3: dropping either handle acts on the shared state exactly as
its `close()`: it sets `closed` to true, and the peer's registered waker
(if any) is among the wakers invoked, so a parked peer is woken. -/
theorem c3_drop_is_close (s : State) (w : Waker) :
    PipeWriter.drop s = PipeWriter.close s ∧
    PipeReader.drop s = PipeReader.close s ∧
    (PipeWriter.drop s).1.closed = true ∧
    (PipeReader.drop s).1.closed = true ∧
    (s.reader_waker = some w → w ∈ (PipeWriter.drop s).2) ∧
    (s.writer_waker = some w → w ∈ (PipeReader.drop s).2) := by
  refine ⟨rfl, rfl, rfl, rfl, ?_, ?_⟩
  · intro hw
    simp [PipeWriter.drop, PipeWriter.close, PipeWriter.wake_reader_half, hw]
  · intro hw
    simp [PipeReader.drop, PipeReader.close, PipeReader.wake_writer_half, hw]

/-- Claim C3 witness: with both wakers registered as 4, dropping the
writer wakes the reader's waker and dropping the reader wakes the
writer's. -/
theorem c3_drop_is_close_witness :
    4 ∈ (PipeWriter.drop
      { reader_waker := some 4, writer_waker := some 4,
        closed := false, buffer := [] }).2 ∧
    4 ∈ (PipeReader.drop
      { reader_waker := some 4, writer_waker := some 4,
        closed := false, buffer := [] }).2 :=
  ⟨(c3_drop_is_close
      { reader_waker := some 4, writer_waker := some 4,
        closed := false, buffer := [] } 4).2.2.2.2.1 rfl,
   (c3_drop_is_close
      { reader_waker := some 4, writer_waker := some 4,
        closed := false, buffer := [] } 4).2.2.2.2.2 rfl⟩

end AsyncPipe
